import Mathlib

/-!
Shallow embedding of `src/third.py`, a small side-scrolling arcade game.

Sprites carry a center position, a size and a per-frame velocity
(`change_x`, `change_y`), as in the host 2D-game runtime.  The window
state (`GameState`) holds the screen size, the player sprite, the enemy
and cloud collections, the `paused`/`debug` flags, and an observable
trace of effects (sounds played, sleeps, window closing).  Randomness is
modelled by passing the `random.randint` oracle as a function argument;
`validRng` states the contract of `random.randint` (inclusive bounds).
-/

set_option autoImplicit false

namespace Arcade

/-- Python `int(...)` truncation toward zero, on a rational. -/
def pyInt (q : ℚ) : ℤ := if 0 ≤ q then ⌊q⌋ else ⌈q⌉

/-- Kinds of sounds the game plays (`collision_sound`, `move_up_sound`,
`move_down_sound` in `src/third.py`). -/
inductive SoundKind where
  | collision
  | moveUp
  | moveDown
deriving DecidableEq

/-- Observable effects of the game code on the host runtime:
`arcade.play_sound`, `time.sleep`, `arcade.close_window`. -/
inductive Effect where
  | sound (k : SoundKind)
  | sleepFor (secs : ℚ)
  | closeWindow
deriving DecidableEq

/-- A sprite of the host runtime: center position, size, per-frame
velocity, a horizontal-flip flag (clouds), and the instance attribute
created by the statement `sprite.set_position = (...)` in `on_update`
(which shadows the sprite's `set_position` method and is never read). -/
structure Sprite where
  center_x : ℚ
  center_y : ℚ
  width : ℚ
  height : ℚ
  change_x : ℚ
  change_y : ℚ
  flipped_h : Bool := false
  set_position_attr : Option (ℤ × ℤ) := none
deriving DecidableEq

/-- Left edge of the sprite's bounding box. -/
def Sprite.left (s : Sprite) : ℚ := s.center_x - s.width / 2

/-- Right edge of the sprite's bounding box. -/
def Sprite.right (s : Sprite) : ℚ := s.center_x + s.width / 2

/-- Top edge of the sprite's bounding box. -/
def Sprite.top (s : Sprite) : ℚ := s.center_y + s.height / 2

/-- Bottom edge of the sprite's bounding box. -/
def Sprite.bottom (s : Sprite) : ℚ := s.center_y - s.height / 2

/-- Assigning `sprite.left = v` moves the sprite so its left edge is `v`. -/
def Sprite.setLeft (v : ℚ) (s : Sprite) : Sprite :=
  { s with center_x := v + s.width / 2 }

/-- Assigning `sprite.right = v` moves the sprite so its right edge is `v`. -/
def Sprite.setRight (v : ℚ) (s : Sprite) : Sprite :=
  { s with center_x := v - s.width / 2 }

/-- Assigning `sprite.top = v` moves the sprite so its top edge is `v`. -/
def Sprite.setTop (v : ℚ) (s : Sprite) : Sprite :=
  { s with center_y := v - s.height / 2 }

/-- Assigning `sprite.bottom = v` moves the sprite so its bottom edge is `v`. -/
def Sprite.setBottom (v : ℚ) (s : Sprite) : Sprite :=
  { s with center_y := v + s.height / 2 }

/-- The host runtime's sprite collision test, on bounding boxes:
two sprites collide when their boxes strictly overlap. -/
def collides (a b : Sprite) : Bool :=
  decide (a.left < b.right) && decide (b.left < a.right) &&
    decide (a.bottom < b.top) && decide (b.bottom < a.top)

/-- The base `arcade.Sprite.update`: move the sprite by its per-frame
velocity `(change_x, change_y)`. -/
def Sprite.baseUpdate (s : Sprite) : Sprite :=
  { s with center_x := s.center_x + s.change_x, center_y := s.center_y + s.change_y }

/-- The statement `sprite.set_position = (int(cx + dx*dt), int(cy + dy*dt))`
in `SpaceShooter.on_update`: it binds an instance attribute named
`set_position` (shadowing the method of that name) and changes nothing else. -/
def bindSetPositionAttr (dt : ℚ) (s : Sprite) : Sprite :=
  { s with
    set_position_attr := some (pyInt (s.center_x + s.change_x * dt),
      pyInt (s.center_y + s.change_y * dt)) }

/-- The per-sprite body of the movement loop in `on_update`: bind the
`set_position` attribute, then call `sprite.update()` (base version). -/
def spriteMoveStep (dt : ℚ) (s : Sprite) : Sprite :=
  (bindSetPositionAttr dt s).baseUpdate

/-- The per-sprite loop body for a `FlyingSprite` (enemy or cloud):
bind the attribute, run `FlyingSprite.update` (move, then remove the
sprite from its lists when its right edge has crossed `x < 0`). -/
def flyingUpdate (dt : ℚ) (s : Sprite) : Option Sprite :=
  let s' := spriteMoveStep dt s
  if s'.right < 0 then none else some s'

/-- The movement loop `for sprite in sprite_list: ...` over one list of
flying sprites.  The loop iterates the live underlying Python list by
index while `FlyingSprite.update` may call `remove_from_sprite_lists()`
on the current sprite: removing it shifts the next sprite into the
current slot, so the iterator passes over that next sprite — it receives
neither its attribute binding nor its `update()` call that frame. -/
def processFlying (dt : ℚ) : List Sprite → List Sprite
  | [] => []
  | [s] =>
    match flyingUpdate dt s with
    | some s' => [s']
    | none => []
  | s :: skipped :: rest =>
    match flyingUpdate dt s with
    | some s' => s' :: processFlying dt (skipped :: rest)
    | none => skipped :: processFlying dt rest

/-- The whole window state of `SpaceShooter`, plus the effect trace. -/
structure GameState where
  width : ℤ
  height : ℤ
  player : Sprite
  enemies : List Sprite
  clouds : List Sprite
  paused : Bool
  debug : Bool
  quit : Bool
  effects : List Effect
deriving DecidableEq

/-- The body of `SpaceShooter.keep_player_in_bounds`, acting on the player
sprite: clamp top, then right, then bottom, then left, each edge
independently, against screen size `scrW × scrH`. -/
def clampSprite (scrW scrH : ℤ) (p0 : Sprite) : Sprite :=
  let p1 := if (scrH : ℚ) < p0.top then p0.setTop (scrH : ℚ) else p0
  let p2 := if (scrW : ℚ) < p1.right then p1.setRight (scrW : ℚ) else p1
  let p3 := if p2.bottom < 0 then p2.setBottom 0 else p2
  if p3.left < 0 then p3.setLeft 0 else p3

/-- `SpaceShooter.keep_player_in_bounds`. -/
def keep_player_in_bounds (g : GameState) : GameState :=
  { g with player := clampSprite g.width g.height g.player }

/-- `SpaceShooter.on_update`: on a paused frame, return at once.
Otherwise check player-vs-enemies collision first (playing the collision
sound, sleeping one second and closing the window on a hit), then run the
movement loop over every sprite list — the player's singleton list (its
base `update` never removes, so no skip can occur there), then the
enemies and clouds with the mid-iteration removal semantics of
`processFlying` — then clamp the player on screen. -/
def on_update (dt : ℚ) (g : GameState) : GameState :=
  if g.paused then g
  else
    let g1 :=
      if g.enemies.any (fun e => collides g.player e) then
        { g with
          effects := g.effects ++
            [Effect.sound SoundKind.collision, Effect.sleepFor 1, Effect.closeWindow]
          quit := true }
      else g
    let g2 :=
      { g1 with
        player := spriteMoveStep dt g1.player
        enemies := processFlying dt g1.enemies
        clouds := processFlying dt g1.clouds }
    keep_player_in_bounds g2

/-- A freshly constructed `FlyingSprite`: center `(0, 0)`, zero velocity,
size taken from its texture. -/
def freshFlying (w h : ℚ) (flip : Bool) : Sprite :=
  { center_x := 0, center_y := 0, width := w, height := h,
    change_x := 0, change_y := 0, flipped_h := flip }

/-- Contract of `random.randint`: on bounds `a ≤ b` the draw lies in
`[a, b]`, both ends inclusive. -/
def validRng (rng : ℤ → ℤ → ℤ) : Prop :=
  ∀ a b : ℤ, a ≤ b → a ≤ rng a b ∧ rng a b ≤ b

/-- The enemy sprite `SpaceShooter.add_enemy` builds: a missile sprite
with `left = randint(width, width + 80)`, `top = randint(10, height - 10)`
and `velocity = (randint(-15, -5), 0)`. -/
def newEnemy (rng : ℤ → ℤ → ℤ) (ew eh : ℚ) (g : GameState) : Sprite :=
  let e0 := freshFlying ew eh false
  let e1 := e0.setLeft ((rng g.width (g.width + 80) : ℤ) : ℚ)
  let e2 := e1.setTop ((rng 10 (g.height - 10) : ℤ) : ℚ)
  { e2 with change_x := ((rng (-15) (-5) : ℤ) : ℚ), change_y := 0 }

/-- `SpaceShooter.add_enemy`: when not paused, build the enemy sprite and
append it to the enemies list. -/
def add_enemy (rng : ℤ → ℤ → ℤ) (ew eh : ℚ) (g : GameState) : GameState :=
  if g.paused then g
  else { g with enemies := g.enemies ++ [newEnemy rng ew eh g] }

/-- The cloud sprite `SpaceShooter.add_cloud` builds: a cloud sprite,
flipped horizontally when `randint(0, 1)` is truthy, with
`left = randint(width, width + 80)`, `top = randint(10, height - 10)` and
`velocity = (randint(-10, -5), 0)`. -/
def newCloud (rng : ℤ → ℤ → ℤ) (cw ch : ℚ) (g : GameState) : Sprite :=
  let c0 := freshFlying cw ch (rng 0 1 != 0)
  let c1 := c0.setLeft ((rng g.width (g.width + 80) : ℤ) : ℚ)
  let c2 := c1.setTop ((rng 10 (g.height - 10) : ℤ) : ℚ)
  { c2 with change_x := ((rng (-10) (-5) : ℤ) : ℚ), change_y := 0 }

/-- `SpaceShooter.add_cloud`: when not paused, build the cloud sprite and
append it to the clouds list. -/
def add_cloud (rng : ℤ → ℤ → ℤ) (cw ch : ℚ) (g : GameState) : GameState :=
  if g.paused then g
  else { g with clouds := g.clouds ++ [newCloud rng cw ch g] }

/-- Keyboard symbols the game distinguishes. -/
inductive Key where
  | escape
  | p
  | o
  | w
  | s
  | a
  | d
  | up
  | down
  | left
  | right
  | q
  | other
deriving DecidableEq

/-- `SpaceShooter.on_key_press`: sequential checks of the pressed symbol.
Escape closes the window; P toggles `paused`; O toggles `debug`; W/Up and
S/Down set the player's vertical velocity (playing a sound); A/Left and
D/Right set the horizontal velocity. -/
def on_key_press (k : Key) (g : GameState) : GameState :=
  let gA := if k = Key.escape then
      { g with
        quit := true
        effects := g.effects ++ [Effect.closeWindow] }
    else g
  let gB := if k = Key.p then { gA with paused := !gA.paused } else gA
  let gC := if k = Key.o then { gB with debug := !gB.debug } else gB
  let gD := if k = Key.w ∨ k = Key.up then
      { gC with
        player := { gC.player with change_y := 5 }
        effects := gC.effects ++ [Effect.sound SoundKind.moveUp] }
    else gC
  let gE := if k = Key.s ∨ k = Key.down then
      { gD with
        player := { gD.player with change_y := -5 }
        effects := gD.effects ++ [Effect.sound SoundKind.moveDown] }
    else gD
  let gF := if k = Key.a ∨ k = Key.left then
      { gE with player := { gE.player with change_x := -5 } }
    else gE
  if k = Key.d ∨ k = Key.right then
    { gF with player := { gF.player with change_x := 5 } }
  else gF

/-- `SpaceShooter.on_key_release`: releasing a vertical movement key
zeroes the vertical velocity, releasing a horizontal one zeroes the
horizontal velocity. -/
def on_key_release (k : Key) (g : GameState) : GameState :=
  let gA := if k = Key.w ∨ k = Key.s ∨ k = Key.up ∨ k = Key.down then
      { g with player := { g.player with change_y := 0 } }
    else g
  if k = Key.a ∨ k = Key.d ∨ k = Key.left ∨ k = Key.right then
    { gA with player := { gA.player with change_x := 0 } }
  else gA

/-- Commands `SpaceShooter.on_draw` issues to the render backend. -/
inductive DrawCmd where
  | sceneDraw
  | hitBoxOutlines
deriving DecidableEq

/-- `SpaceShooter.on_draw`: draw the scene, then the hit-box outlines
when `debug` is set. -/
def on_draw (g : GameState) : List DrawCmd :=
  [DrawCmd.sceneDraw] ++ (if g.debug then [DrawCmd.hitBoxOutlines] else [])

/-- One event dispatched by the host runtime's event loop: a frame
update, a key press or release, or one of the two scheduled spawn
callbacks (each carrying its `random.randint` oracle and the size of the
texture it loads). -/
inductive GEvent where
  | frame (dt : ℚ)
  | press (k : Key)
  | release (k : Key)
  | spawnEnemy (rng : ℤ → ℤ → ℤ) (ew eh : ℚ)
  | spawnCloud (rng : ℤ → ℤ → ℤ) (cw ch : ℚ)

/-- Dispatch of one event to its handler. -/
def stepEvent (e : GEvent) (g : GameState) : GameState :=
  match e with
  | GEvent.frame dt => on_update dt g
  | GEvent.press k => on_key_press k g
  | GEvent.release k => on_key_release k g
  | GEvent.spawnEnemy rng ew eh => add_enemy rng ew eh g
  | GEvent.spawnCloud rng cw ch => add_cloud rng cw ch g

/-- Run a whole sequence of events, in dispatch order. -/
def runEvents (evs : List GEvent) (g : GameState) : GameState :=
  evs.foldl (fun st e => stepEvent e st) g

/-- Projection that forgets the `debug` flag. -/
def eraseDebug (g : GameState) : GameState := { g with debug := false }

/-- How the `debug` flag itself evolves under one event: only pressing O
touches it. -/
def debugAfter (e : GEvent) (b : Bool) : Bool :=
  match e with
  | GEvent.press Key.o => !b
  | _ => b

/-- Positions of every live entity: the player's center and the centers
of all enemies and clouds, in Registry order. -/
def posView (g : GameState) : (ℚ × ℚ) × List (ℚ × ℚ) × List (ℚ × ℚ) :=
  ((g.player.center_x, g.player.center_y),
   g.enemies.map (fun e => (e.center_x, e.center_y)),
   g.clouds.map (fun c => (c.center_x, c.center_y)))

/-- Modelled from the spec: `add_enemy` as the spec's Spawner contract
words it, identical to the code's `add_enemy` except that the enemy's
horizontal velocity is drawn by `random_int(-20, -5)`.  Kept only to
compare against the code's `add_enemy`, whose draw is
`randint(-15, -5)`. -/
def add_enemy_claimed (rng : ℤ → ℤ → ℤ) (ew eh : ℚ) (g : GameState) : GameState :=
  if g.paused then g
  else
    let e0 := freshFlying ew eh false
    let e1 := e0.setLeft ((rng g.width (g.width + 80) : ℤ) : ℚ)
    let e2 := e1.setTop ((rng 10 (g.height - 10) : ℤ) : ℚ)
    { g with enemies := g.enemies ++
        [{ e2 with change_x := ((rng (-20) (-5) : ℤ) : ℚ), change_y := 0 }] }

/-- A perfectly valid `randint` oracle that always returns the lower
bound. -/
def rngLow : ℤ → ℤ → ℤ := fun a _ => a

/-- A concrete unpaused state: the player drifting left at 10 units per
frame, no enemies and no clouds. -/
def cfgDrift : GameState :=
  { width := 800, height := 600
    player := { center_x := 100, center_y := 100, width := 10, height := 10,
                change_x := -10, change_y := 0 }
    enemies := [], clouds := [], paused := false, debug := false, quit := false
    effects := [] }

/-- A concrete paused state with one enemy and one cloud on screen. -/
def cfgPaused : GameState :=
  { width := 800, height := 600
    player := { center_x := 400, center_y := 300, width := 10, height := 10,
                change_x := 5, change_y := 0 }
    enemies := [{ center_x := 500, center_y := 300, width := 10, height := 10,
                  change_x := -8, change_y := 0 }]
    clouds := [{ center_x := 600, center_y := 400, width := 20, height := 10,
                 change_x := -6, change_y := 0 }]
    paused := true, debug := false, quit := false, effects := [] }

/-- A concrete unpaused state whose single enemy's bounding box overlaps
the player's: the spec's collision scenario, player at `(400, 300)` with
no velocity. -/
def cfgOverlap : GameState :=
  { width := 800, height := 600
    player := { center_x := 400, center_y := 300, width := 10, height := 10,
                change_x := 0, change_y := 0 }
    enemies := [{ center_x := 405, center_y := 300, width := 10, height := 10,
                  change_x := -5, change_y := 0 }]
    clouds := [], paused := false, debug := false, quit := false, effects := [] }

/-- A concrete unpaused state whose single enemy does not yet overlap the
player but moves far enough this frame to overlap it after the frame's
movement. -/
def cfgIncoming : GameState :=
  { width := 800, height := 600
    player := { center_x := 400, center_y := 300, width := 10, height := 10,
                change_x := 0, change_y := 0 }
    enemies := [{ center_x := 500, center_y := 300, width := 10, height := 10,
                  change_x := -95, change_y := 0 }]
    clouds := [], paused := false, debug := false, quit := false, effects := [] }

/-- A concrete unpaused state with the player far outside the screen on
the upper right. -/
def cfgAstray : GameState :=
  { width := 800, height := 600
    player := { center_x := 2000, center_y := 1500, width := 10, height := 10,
                change_x := 3, change_y := 4 }
    enemies := [], clouds := [], paused := false, debug := false, quit := false
    effects := [] }

/-- A concrete unpaused state with one enemy and one cloud each crossing
the left screen edge on this frame, and one enemy staying on screen. -/
def cfgEdge : GameState :=
  { width := 800, height := 600
    player := { center_x := 400, center_y := 100, width := 10, height := 10,
                change_x := 0, change_y := 0 }
    enemies := [{ center_x := 2, center_y := 300, width := 10, height := 10,
                  change_x := -10, change_y := 0 },
                { center_x := 300, center_y := 300, width := 10, height := 10,
                  change_x := -10, change_y := 0 }]
    clouds := [{ center_x := 3, center_y := 400, width := 12, height := 10,
                 change_x := -15, change_y := 0 }]
    paused := false, debug := false, quit := false, effects := [] }

/-- A concrete unpaused state with empty Registry collections, used for
spawning. -/
def cfgSpawn : GameState :=
  { width := 800, height := 600
    player := { center_x := 15, center_y := 300, width := 10, height := 10,
                change_x := 0, change_y := 0 }
    enemies := [], clouds := [], paused := false, debug := false, quit := false
    effects := [] }

/-- A concrete unpaused state used for keyboard scenarios. -/
def cfgKeys : GameState :=
  { width := 800, height := 600
    player := { center_x := 15, center_y := 300, width := 10, height := 10,
                change_x := 0, change_y := 0 }
    enemies := [], clouds := [], paused := false, debug := false, quit := false
    effects := [] }


/-! Helper lemmas: characterizations of one unpaused `on_update`, the
clamp bounds, eviction, `debug`-commutation and `dt`-independence. -/

lemma onUpdate_player (dt : ℚ) (g : GameState) (h : g.paused = false) :
    (on_update dt g).player = clampSprite g.width g.height (spriteMoveStep dt g.player) := by
  cases hc : g.enemies.any (fun e => collides g.player e) <;>
    simp [on_update, h, hc, keep_player_in_bounds]

lemma onUpdate_enemies (dt : ℚ) (g : GameState) (h : g.paused = false) :
    (on_update dt g).enemies = processFlying dt g.enemies := by
  cases hc : g.enemies.any (fun e => collides g.player e) <;>
    simp [on_update, h, hc, keep_player_in_bounds]

lemma onUpdate_clouds (dt : ℚ) (g : GameState) (h : g.paused = false) :
    (on_update dt g).clouds = processFlying dt g.clouds := by
  cases hc : g.enemies.any (fun e => collides g.player e) <;>
    simp [on_update, h, hc, keep_player_in_bounds]

lemma onUpdate_effects (dt : ℚ) (g : GameState) (h : g.paused = false) :
    (on_update dt g).effects = g.effects ++
      (if g.enemies.any (fun e => collides g.player e) then
        [Effect.sound SoundKind.collision, Effect.sleepFor 1, Effect.closeWindow]
       else []) := by
  cases hc : g.enemies.any (fun e => collides g.player e) <;>
    simp [on_update, h, hc, keep_player_in_bounds]

lemma onUpdate_quit (dt : ℚ) (g : GameState) (h : g.paused = false) :
    (on_update dt g).quit =
      (g.quit || g.enemies.any (fun e => collides g.player e)) := by
  cases hc : g.enemies.any (fun e => collides g.player e) <;>
    simp [on_update, h, hc, keep_player_in_bounds]

lemma clampSprite_bounds (scrW scrH : ℤ) (p : Sprite)
    (hw : p.width ≤ (scrW : ℚ)) (hh : p.height ≤ (scrH : ℚ)) :
    0 ≤ (clampSprite scrW scrH p).left ∧ (clampSprite scrW scrH p).right ≤ (scrW : ℚ) ∧
      0 ≤ (clampSprite scrW scrH p).bottom ∧ (clampSprite scrW scrH p).top ≤ (scrH : ℚ) := by
  obtain ⟨cx, cy, w, h, dx, dy, fl, ap⟩ := p
  simp only [Sprite.width] at hw
  simp only [Sprite.height] at hh
  simp only [clampSprite, Sprite.setTop, Sprite.setRight, Sprite.setBottom, Sprite.setLeft,
    Sprite.left, Sprite.right, Sprite.top, Sprite.bottom]
  split_ifs <;>
    refine ⟨by simp <;> linarith, by simp <;> linarith, by simp <;> linarith, by simp <;> linarith⟩

lemma flyingUpdate_some_right {dt : ℚ} {s e : Sprite}
    (h : flyingUpdate dt s = some e) : ¬ e.right < 0 := by
  simp only [flyingUpdate] at h
  split at h
  · exact absurd h (by simp)
  · next hcond =>
      rw [Option.some_inj] at h
      rw [← h]
      exact hcond

lemma onUpdate_debug (dt : ℚ) (g : GameState) (b : Bool) :
    on_update dt { g with debug := b } = { on_update dt g with debug := b } := by
  obtain ⟨w, h, pl, en, cl, pa, db, qu, ef⟩ := g
  cases pa
  · cases hc : en.any (fun e => collides pl e) <;>
      simp [on_update, hc, keep_player_in_bounds]
  · simp [on_update]

lemma addEnemy_debug (rng : ℤ → ℤ → ℤ) (ew eh : ℚ) (g : GameState) (b : Bool) :
    add_enemy rng ew eh { g with debug := b } = { add_enemy rng ew eh g with debug := b } := by
  obtain ⟨w, h, pl, en, cl, pa, db, qu, ef⟩ := g
  cases pa <;> simp [add_enemy, newEnemy, freshFlying, Sprite.setLeft, Sprite.setTop]

lemma addCloud_debug (rng : ℤ → ℤ → ℤ) (cw ch : ℚ) (g : GameState) (b : Bool) :
    add_cloud rng cw ch { g with debug := b } = { add_cloud rng cw ch g with debug := b } := by
  obtain ⟨w, h, pl, en, cl, pa, db, qu, ef⟩ := g
  cases pa <;> simp [add_cloud, newCloud, freshFlying, Sprite.setLeft, Sprite.setTop]

lemma onKeyPress_debug (k : Key) (g : GameState) (b : Bool) :
    on_key_press k { g with debug := b } =
      { on_key_press k g with debug := if k = Key.o then !b else b } := by
  obtain ⟨w, h, pl, en, cl, pa, db, qu, ef⟩ := g
  cases k <;> rfl

lemma onKeyRelease_debug (k : Key) (g : GameState) (b : Bool) :
    on_key_release k { g with debug := b } = { on_key_release k g with debug := b } := by
  obtain ⟨w, h, pl, en, cl, pa, db, qu, ef⟩ := g
  cases k <;> rfl

lemma stepEvent_debug (e : GEvent) (g : GameState) (b : Bool) :
    stepEvent e { g with debug := b } = { stepEvent e g with debug := debugAfter e b } := by
  cases e with
  | frame dt => exact onUpdate_debug dt g b
  | press k =>
      cases k <;> simp [stepEvent, debugAfter, onKeyPress_debug]
  | release k => exact onKeyRelease_debug k g b
  | spawnEnemy rng ew eh => exact addEnemy_debug rng ew eh g b
  | spawnCloud rng cw ch => exact addCloud_debug rng cw ch g b

lemma runEvents_debug (evs : List GEvent) (g : GameState) (b : Bool) :
    runEvents evs { g with debug := b } =
      { runEvents evs g with debug := evs.foldl (fun d e => debugAfter e d) b } := by
  induction evs generalizing g b with
  | nil => simp [runEvents]
  | cons e evs ih =>
      simp only [runEvents, List.foldl_cons] at *
      rw [stepEvent_debug, ih]

lemma spriteMoveStep_attr (dta dtb : ℚ) (s : Sprite) :
    spriteMoveStep dta s =
      { spriteMoveStep dtb s with
        set_position_attr := some (pyInt (s.center_x + s.change_x * dta),
          pyInt (s.center_y + s.change_y * dta)) } := by
  cases s
  rfl

lemma clampSprite_attr (scrW scrH : ℤ) (s : Sprite) (a : Option (ℤ × ℤ)) :
    clampSprite scrW scrH { s with set_position_attr := a } =
      { clampSprite scrW scrH s with set_position_attr := a } := by
  cases s
  simp only [clampSprite, Sprite.setTop, Sprite.setRight, Sprite.setBottom, Sprite.setLeft,
    Sprite.left, Sprite.right, Sprite.top, Sprite.bottom]
  split_ifs <;> rfl

lemma flyingUpdate_centerPair (dta dtb : ℚ) (s : Sprite) :
    (flyingUpdate dta s).map (fun e => (e.center_x, e.center_y)) =
      (flyingUpdate dtb s).map (fun e => (e.center_x, e.center_y)) := by
  cases s
  simp only [flyingUpdate, spriteMoveStep, bindSetPositionAttr, Sprite.baseUpdate,
    Sprite.right]
  split_ifs <;> rfl

lemma processFlying_centerPairs (dta dtb : ℚ) :
    ∀ l : List Sprite,
      (processFlying dta l).map (fun e => (e.center_x, e.center_y)) =
        (processFlying dtb l).map (fun e => (e.center_x, e.center_y))
  | [] => by simp [processFlying]
  | [s] => by
      have h := flyingUpdate_centerPair dta dtb s
      cases ha : flyingUpdate dta s with
      | none =>
          cases hb : flyingUpdate dtb s with
          | none => simp [processFlying, ha, hb]
          | some b =>
              rw [ha, hb] at h
              simp at h
      | some a =>
          cases hb : flyingUpdate dtb s with
          | none =>
              rw [ha, hb] at h
              simp at h
          | some b =>
              rw [ha, hb] at h
              have h2 : (a.center_x, a.center_y) = (b.center_x, b.center_y) := by
                simpa using h
              simp [processFlying, ha, hb, h2]
  | s :: skipped :: rest => by
      have h := flyingUpdate_centerPair dta dtb s
      cases ha : flyingUpdate dta s with
      | none =>
          cases hb : flyingUpdate dtb s with
          | none =>
              simp only [processFlying, ha, hb, List.map_cons]
              rw [processFlying_centerPairs dta dtb rest]
          | some b =>
              rw [ha, hb] at h
              simp at h
      | some a =>
          cases hb : flyingUpdate dtb s with
          | none =>
              rw [ha, hb] at h
              simp at h
          | some b =>
              rw [ha, hb] at h
              have h2 : (a.center_x, a.center_y) = (b.center_x, b.center_y) := by
                simpa using h
              simp only [processFlying, ha, hb, List.map_cons, h2]
              rw [processFlying_centerPairs dta dtb (skipped :: rest)]

lemma processFlying_mem (dt : ℚ) :
    ∀ l : List Sprite, ∀ s ∈ processFlying dt l,
      (∃ a ∈ l, flyingUpdate dt a = some s) ∨ s ∈ l
  | [] => by simp [processFlying]
  | [a] => by
      intro s hs
      cases ha : flyingUpdate dt a with
      | none => simp [processFlying, ha] at hs
      | some b =>
          simp only [processFlying, ha, List.mem_singleton] at hs
          subst hs
          exact Or.inl ⟨a, by simp, ha⟩
  | a :: b :: rest => by
      intro s hs
      cases ha : flyingUpdate dt a with
      | none =>
          simp only [processFlying, ha, List.mem_cons] at hs
          rcases hs with rfl | hs
          · exact Or.inr (by simp)
          · rcases processFlying_mem dt rest s hs with ⟨x, hx, hfx⟩ | hmem
            · exact Or.inl ⟨x, List.mem_cons_of_mem a (List.mem_cons_of_mem b hx), hfx⟩
            · exact Or.inr (List.mem_cons_of_mem a (List.mem_cons_of_mem b hmem))
      | some c =>
          simp only [processFlying, ha, List.mem_cons] at hs
          rcases hs with rfl | hs
          · exact Or.inl ⟨a, by simp, ha⟩
          · rcases processFlying_mem dt (b :: rest) s hs with ⟨x, hx, hfx⟩ | hmem
            · exact Or.inl ⟨x, List.mem_cons_of_mem a hx, hfx⟩
            · exact Or.inr (List.mem_cons_of_mem a hmem)

lemma posView_onUpdate_dt (dta dtb : ℚ) (g : GameState) (h : g.paused = false) :
    posView (on_update dta g) = posView (on_update dtb g) := by
  simp only [posView, onUpdate_player _ _ h, onUpdate_enemies _ _ h, onUpdate_clouds _ _ h,
    Prod.mk.injEq]
  refine ⟨?_, ?_, ?_⟩
  · rw [spriteMoveStep_attr dta dtb, clampSprite_attr]
    simp
  · exact processFlying_centerPairs dta dtb g.enemies
  · exact processFlying_centerPairs dta dtb g.clouds


/-! Claim theorems. -/

/-- C1: the spec says an unpaused frame sets `position += velocity * dt`.
At the failing input (player at `center_x = 100` with `change_x = -10`,
frame time `dt = 1/2`) the code leaves `center_x = 90`: the sprite moved
by a full `change_x`, while the spec's contract demands
`100 + (-10) * (1/2) = 95`. -/
theorem C1_dt_ignored_on_update :
    (on_update (1/2) cfgDrift).player.center_x = 90 ∧
      cfgDrift.player.center_x + cfgDrift.player.change_x * (1/2) = 95 ∧
      (90 : ℚ) ≠ 95 := by
  refine ⟨?_, by norm_num [cfgDrift], by norm_num⟩
  norm_num [on_update, cfgDrift, keep_player_in_bounds, clampSprite, spriteMoveStep,
    bindSetPositionAttr, Sprite.baseUpdate, Sprite.left, Sprite.right, Sprite.top,
    Sprite.bottom, Sprite.setLeft, Sprite.setRight, Sprite.setTop, Sprite.setBottom,
    collides, flyingUpdate, processFlying]

/-- C2: while `paused` is true, a frame-loop invocation leaves the whole
state unchanged (in particular no position changes), and neither spawn
trigger adds an entity, for any elapsed time and any random draws. -/
theorem C2_paused_freezes_everything (g : GameState) (dt : ℚ)
    (rngE rngC : ℤ → ℤ → ℤ) (ew eh cw ch : ℚ) (h : g.paused = true) :
    on_update dt g = g ∧ add_enemy rngE ew eh g = g ∧ add_cloud rngC cw ch g = g := by
  refine ⟨?_, ?_, ?_⟩ <;> simp [on_update, add_enemy, add_cloud, h]

/-- Witness for C2 at a concrete paused state. -/
theorem C2_paused_freezes_everything_witness :
    cfgPaused.paused = true ∧
      (on_update 7 cfgPaused = cfgPaused ∧ add_enemy rngLow 3 3 cfgPaused = cfgPaused ∧
        add_cloud rngLow 4 4 cfgPaused = cfgPaused) :=
  ⟨rfl, C2_paused_freezes_everything cfgPaused 7 rngLow rngLow 3 3 4 4 rfl⟩

/-- C3: if some enemy's bounding box overlaps the player's, the next
unpaused frame-loop invocation signals the game-over event exactly once:
it appends exactly one collision sound, one fixed one-second sleep and
one window close to the effect trace, and marks the window closed. -/
theorem C3_collision_signals_once (g : GameState) (dt : ℚ) (h : g.paused = false)
    (hc : g.enemies.any (fun e => collides g.player e) = true) :
    (on_update dt g).effects = g.effects ++
      [Effect.sound SoundKind.collision, Effect.sleepFor 1, Effect.closeWindow] ∧
      (on_update dt g).quit = true := by
  constructor
  · rw [onUpdate_effects dt g h, hc]
    simp
  · rw [onUpdate_quit dt g h, hc]
    simp

/-- Witness for C3: the spec's scenario, player at `(400, 300)` with no
velocity and one overlapping enemy. -/
theorem C3_collision_signals_once_witness :
    (cfgOverlap.paused = false ∧
      cfgOverlap.enemies.any (fun e => collides cfgOverlap.player e) = true) ∧
      ((on_update 1 cfgOverlap).effects = cfgOverlap.effects ++
        [Effect.sound SoundKind.collision, Effect.sleepFor 1, Effect.closeWindow] ∧
        (on_update 1 cfgOverlap).quit = true) :=
  ⟨⟨rfl, by norm_num [cfgOverlap, collides, Sprite.left, Sprite.right, Sprite.top,
      Sprite.bottom]⟩,
    C3_collision_signals_once cfgOverlap 1 rfl
      (by norm_num [cfgOverlap, collides, Sprite.left, Sprite.right, Sprite.top,
        Sprite.bottom])⟩

/-- C4 counterexample: the claim puts the collision test after the
frame's movement and clamp, but the code runs it first.  In `cfgIncoming`
the only enemy does not overlap the player before movement but does
afterwards: the frame signals nothing (empty effect trace, window open),
yet the post-frame state holds an enemy overlapping the player. -/
theorem C4_collision_after_move_counterexample :
    (on_update 1 cfgIncoming).effects = [] ∧ (on_update 1 cfgIncoming).quit = false ∧
      (on_update 1 cfgIncoming).enemies.any
        (fun e => collides (on_update 1 cfgIncoming).player e) = true := by
  refine ⟨?_, ?_, ?_⟩ <;>
    norm_num [on_update, cfgIncoming, keep_player_in_bounds, clampSprite, spriteMoveStep,
      bindSetPositionAttr, Sprite.baseUpdate, Sprite.left, Sprite.right, Sprite.top,
      Sprite.bottom, Sprite.setLeft, Sprite.setRight, Sprite.setTop, Sprite.setBottom,
      collides, flyingUpdate, processFlying]

/-- C4 amended: within one unpaused frame-loop invocation the order is:
(1) the player-vs-enemies collision test, on the pre-movement positions,
(2) the movement loop over the entity collections — each iterated entity
is moved and then evicted when its right edge has crossed below 0, with
the entity immediately after an evicted one skipped for that frame by
the mid-iteration removal — then (3) the player clamp; so the collision
test precedes that frame's movement and clamp. -/
theorem C4_collision_tested_before_move (g : GameState) (dt : ℚ) (h : g.paused = false) :
    (on_update dt g).effects = g.effects ++
      (if g.enemies.any (fun e => collides g.player e) then
        [Effect.sound SoundKind.collision, Effect.sleepFor 1, Effect.closeWindow]
       else []) ∧
      (on_update dt g).enemies = processFlying dt g.enemies ∧
      (on_update dt g).clouds = processFlying dt g.clouds ∧
      (on_update dt g).player = clampSprite g.width g.height (spriteMoveStep dt g.player) :=
  ⟨onUpdate_effects dt g h, onUpdate_enemies dt g h, onUpdate_clouds dt g h,
    onUpdate_player dt g h⟩

/-- Witness for the amended C4 at a concrete unpaused state. -/
theorem C4_collision_tested_before_move_witness :
    cfgEdge.paused = false ∧
      ((on_update 1 cfgEdge).effects = cfgEdge.effects ++
        (if cfgEdge.enemies.any (fun e => collides cfgEdge.player e) then
          [Effect.sound SoundKind.collision, Effect.sleepFor 1, Effect.closeWindow]
         else []) ∧
        (on_update 1 cfgEdge).enemies = processFlying 1 cfgEdge.enemies ∧
        (on_update 1 cfgEdge).clouds = processFlying 1 cfgEdge.clouds ∧
        (on_update 1 cfgEdge).player =
          clampSprite cfgEdge.width cfgEdge.height (spriteMoveStep 1 cfgEdge.player)) :=
  ⟨rfl, C4_collision_tested_before_move cfgEdge 1 rfl⟩

/-- C5: after the clamp step of an unpaused frame-loop invocation the
player's bounding box satisfies `0 ≤ left`, `right ≤ screen_width`,
`0 ≤ bottom` and `top ≤ screen_height`, for any pre-clamp position of a
player no larger than the screen. -/
theorem C5_player_stays_on_screen (g : GameState) (dt : ℚ) (h : g.paused = false)
    (hw : g.player.width ≤ (g.width : ℚ)) (hh : g.player.height ≤ (g.height : ℚ)) :
    0 ≤ (on_update dt g).player.left ∧
      (on_update dt g).player.right ≤ (g.width : ℚ) ∧
      0 ≤ (on_update dt g).player.bottom ∧
      (on_update dt g).player.top ≤ (g.height : ℚ) := by
  rw [onUpdate_player dt g h]
  exact clampSprite_bounds g.width g.height (spriteMoveStep dt g.player) hw hh

/-- Witness for C5: a player far off the top-right corner is pulled back
inside the screen in one frame. -/
theorem C5_player_stays_on_screen_witness :
    (cfgAstray.paused = false ∧ cfgAstray.player.width ≤ (cfgAstray.width : ℚ) ∧
      cfgAstray.player.height ≤ (cfgAstray.height : ℚ)) ∧
      (0 ≤ (on_update 1 cfgAstray).player.left ∧
        (on_update 1 cfgAstray).player.right ≤ (cfgAstray.width : ℚ) ∧
        0 ≤ (on_update 1 cfgAstray).player.bottom ∧
        (on_update 1 cfgAstray).player.top ≤ (cfgAstray.height : ℚ)) :=
  ⟨⟨rfl, by norm_num [cfgAstray], by norm_num [cfgAstray]⟩,
    C5_player_stays_on_screen cfgAstray 1 rfl (by norm_num [cfgAstray])
      (by norm_num [cfgAstray])⟩

lemma newEnemy_right (rng : ℤ → ℤ → ℤ) (ew eh : ℚ) (g : GameState) :
    (newEnemy rng ew eh g).right = ((rng g.width (g.width + 80) : ℤ) : ℚ) + ew := by
  simp [newEnemy, freshFlying, Sprite.setLeft, Sprite.setTop, Sprite.right]
  ring

lemma newCloud_right (rng : ℤ → ℤ → ℤ) (cw ch : ℚ) (g : GameState) :
    (newCloud rng cw ch g).right = ((rng g.width (g.width + 80) : ℤ) : ℚ) + cw := by
  simp [newCloud, freshFlying, Sprite.setLeft, Sprite.setTop, Sprite.right]
  ring

/-- C6: an entity that receives its position update and ends with its
right edge below 0 is evicted at once, inside `FlyingSprite.update`
(first conjunct).  Hence the invariant that no retained enemy or cloud
has right edge below 0 holds at every frame boundary of a run: an
unpaused frame preserves it (every retained entity either survived its
update's eviction check or was skipped unchanged by the mid-iteration
removal), and both spawn triggers preserve it because a fresh entity is
placed with its left edge at or right of `screen_width ≥ 0`.  So no
entity whose position update drove it off screen is ever retained to a
later frame evaluation. -/
theorem C6_offscreen_entities_evicted (g : GameState) (dt : ℚ) (rng : ℤ → ℤ → ℤ)
    (ew eh cw ch : ℚ) (h : g.paused = false)
    (he : ∀ e ∈ g.enemies, ¬ e.right < 0) (hcl : ∀ c ∈ g.clouds, ¬ c.right < 0)
    (hr : validRng rng) (hw : 0 ≤ g.width) (hew : 0 ≤ ew) (hcw : 0 ≤ cw) :
    (∀ s s' : Sprite, flyingUpdate dt s = some s' → ¬ s'.right < 0) ∧
      (∀ e ∈ (on_update dt g).enemies, ¬ e.right < 0) ∧
      (∀ c ∈ (on_update dt g).clouds, ¬ c.right < 0) ∧
      (∀ e ∈ (add_enemy rng ew eh g).enemies, ¬ e.right < 0) ∧
      (∀ c ∈ (add_cloud rng cw ch g).clouds, ¬ c.right < 0) := by
  have hdraw : (0 : ℚ) ≤ ((rng g.width (g.width + 80) : ℤ) : ℚ) := by
    have h1 : g.width ≤ rng g.width (g.width + 80) := (hr g.width (g.width + 80) (by linarith)).1
    exact_mod_cast le_trans hw h1
  refine ⟨fun s s' hs => flyingUpdate_some_right hs, ?_, ?_, ?_, ?_⟩
  · intro e hee
    rw [onUpdate_enemies dt g h] at hee
    rcases processFlying_mem dt g.enemies e hee with ⟨a, _, ha⟩ | hmem
    · exact flyingUpdate_some_right ha
    · exact he e hmem
  · intro c hcc
    rw [onUpdate_clouds dt g h] at hcc
    rcases processFlying_mem dt g.clouds c hcc with ⟨a, _, ha⟩ | hmem
    · exact flyingUpdate_some_right ha
    · exact hcl c hmem
  · intro e hee
    simp only [add_enemy, h, Bool.false_eq_true, if_false, List.mem_append,
      List.mem_singleton] at hee
    rcases hee with hmem | rfl
    · exact he e hmem
    · rw [not_lt, newEnemy_right]
      linarith
  · intro c hcc
    simp only [add_cloud, h, Bool.false_eq_true, if_false, List.mem_append,
      List.mem_singleton] at hcc
    rcases hcc with hmem | rfl
    · exact hcl c hmem
    · rw [not_lt, newCloud_right]
      linarith

/-- Witness for C6: a frame in which one enemy and the one cloud cross
the left edge (the trailing enemy is skipped unchanged), plus one spawn
of each kind with the lower-bound oracle. -/
theorem C6_offscreen_entities_evicted_witness :
    (cfgEdge.paused = false ∧ (∀ e ∈ cfgEdge.enemies, ¬ e.right < 0) ∧
      (∀ c ∈ cfgEdge.clouds, ¬ c.right < 0) ∧ validRng rngLow ∧
      0 ≤ cfgEdge.width ∧ (0 : ℚ) ≤ 8 ∧ (0 : ℚ) ≤ 6) ∧
      ((∀ s s' : Sprite, flyingUpdate 1 s = some s' → ¬ s'.right < 0) ∧
        (∀ e ∈ (on_update 1 cfgEdge).enemies, ¬ e.right < 0) ∧
        (∀ c ∈ (on_update 1 cfgEdge).clouds, ¬ c.right < 0) ∧
        (∀ e ∈ (add_enemy rngLow 8 8 cfgEdge).enemies, ¬ e.right < 0) ∧
        (∀ c ∈ (add_cloud rngLow 6 4 cfgEdge).clouds, ¬ c.right < 0)) := by
  have h2 : ∀ e ∈ cfgEdge.enemies, ¬ e.right < 0 := by
    intro e hee
    simp only [cfgEdge, List.mem_cons, List.not_mem_nil, or_false] at hee
    rcases hee with rfl | rfl <;> norm_num [Sprite.right]
  have h3 : ∀ c ∈ cfgEdge.clouds, ¬ c.right < 0 := by
    intro c hcc
    simp only [cfgEdge, List.mem_singleton] at hcc
    subst hcc
    norm_num [Sprite.right]
  have h4 : validRng rngLow := fun a b hab => ⟨le_refl a, hab⟩
  exact ⟨⟨rfl, h2, h3, h4, by norm_num [cfgEdge], by norm_num, by norm_num⟩,
    C6_offscreen_entities_evicted cfgEdge 1 rngLow 8 8 6 4 rfl h2 h3 h4
      (by norm_num [cfgEdge]) (by norm_num) (by norm_num)⟩

lemma newEnemy_fields (rng : ℤ → ℤ → ℤ) (ew eh : ℚ) (g : GameState) :
    (newEnemy rng ew eh g).left = ((rng g.width (g.width + 80) : ℤ) : ℚ) ∧
      (newEnemy rng ew eh g).top = ((rng 10 (g.height - 10) : ℤ) : ℚ) ∧
      (newEnemy rng ew eh g).change_x = ((rng (-15) (-5) : ℤ) : ℚ) ∧
      (newEnemy rng ew eh g).change_y = 0 := by
  refine ⟨?_, ?_, rfl, rfl⟩ <;>
    simp [newEnemy, freshFlying, Sprite.setLeft, Sprite.setTop, Sprite.left, Sprite.top]

lemma newCloud_fields (rng : ℤ → ℤ → ℤ) (cw ch : ℚ) (g : GameState) :
    (newCloud rng cw ch g).left = ((rng g.width (g.width + 80) : ℤ) : ℚ) ∧
      (newCloud rng cw ch g).top = ((rng 10 (g.height - 10) : ℤ) : ℚ) ∧
      (newCloud rng cw ch g).change_x = ((rng (-10) (-5) : ℤ) : ℚ) ∧
      (newCloud rng cw ch g).change_y = 0 := by
  refine ⟨?_, ?_, rfl, rfl⟩ <;>
    simp [newCloud, freshFlying, Sprite.setLeft, Sprite.setTop, Sprite.left, Sprite.top]

/-- C7 counterexample: the claim draws the enemy's horizontal velocity by
`random_int(-20, -5)`, but the code calls `randint(-15, -5)`.  With the
valid oracle that always returns the lower bound, the code spawns an
enemy with velocity `-15` while the claimed spawner yields `-20`. -/
theorem C7_enemy_velocity_range_counterexample :
    (add_enemy rngLow 8 8 cfgSpawn).enemies.map Sprite.change_x = [(-15 : ℚ)] ∧
      (add_enemy_claimed rngLow 8 8 cfgSpawn).enemies.map Sprite.change_x = [(-20 : ℚ)] ∧
      (-15 : ℚ) ≠ -20 := by
  refine ⟨?_, ?_, by norm_num⟩ <;>
    norm_num [add_enemy, add_enemy_claimed, newEnemy, cfgSpawn, freshFlying,
      Sprite.setLeft, Sprite.setTop, rngLow]

/-- C7 amended: each spawn trigger, when not paused, appends exactly one
entity to its collection, with `left` in `[screen_width, screen_width + 80]`,
`top` in `[10, screen_height - 10]` (inclusive bounds), vertical velocity
0, and horizontal velocity in `[-15, -5]` for an enemy and `[-10, -5]`
for a cloud. -/
theorem C7_spawn_contract (g : GameState) (rng : ℤ → ℤ → ℤ) (ew eh cw ch : ℚ)
    (h : g.paused = false) (hr : validRng rng) (hs : (20 : ℤ) ≤ g.height) :
    (∃ e, (add_enemy rng ew eh g).enemies = g.enemies ++ [e] ∧
      (add_enemy rng ew eh g).clouds = g.clouds ∧
      (g.width : ℚ) ≤ e.left ∧ e.left ≤ (g.width : ℚ) + 80 ∧
      (10 : ℚ) ≤ e.top ∧ e.top ≤ (g.height : ℚ) - 10 ∧
      e.change_y = 0 ∧ (-15 : ℚ) ≤ e.change_x ∧ e.change_x ≤ -5) ∧
    (∃ c, (add_cloud rng cw ch g).clouds = g.clouds ++ [c] ∧
      (add_cloud rng cw ch g).enemies = g.enemies ∧
      (g.width : ℚ) ≤ c.left ∧ c.left ≤ (g.width : ℚ) + 80 ∧
      (10 : ℚ) ≤ c.top ∧ c.top ≤ (g.height : ℚ) - 10 ∧
      c.change_y = 0 ∧ (-10 : ℚ) ≤ c.change_x ∧ c.change_x ≤ -5) := by
  have h1 : g.width ≤ g.width + 80 := by linarith
  have h2 : (10 : ℤ) ≤ g.height - 10 := by linarith
  obtain ⟨ha1, ha2⟩ := hr g.width (g.width + 80) h1
  obtain ⟨hb1, hb2⟩ := hr 10 (g.height - 10) h2
  obtain ⟨hc1, hc2⟩ := hr (-15) (-5) (by norm_num)
  obtain ⟨hd1, hd2⟩ := hr (-10) (-5) (by norm_num)
  obtain ⟨he1, he2, he3, he4⟩ := newEnemy_fields rng ew eh g
  obtain ⟨hf1, hf2, hf3, hf4⟩ := newCloud_fields rng cw ch g
  constructor
  · refine ⟨newEnemy rng ew eh g, by simp [add_enemy, h], by simp [add_enemy, h],
      ?_, ?_, ?_, ?_, he4, ?_, ?_⟩
    · rw [he1]; exact_mod_cast ha1
    · rw [he1]; exact_mod_cast ha2
    · rw [he2]; exact_mod_cast hb1
    · rw [he2]; exact_mod_cast hb2
    · rw [he3]; exact_mod_cast hc1
    · rw [he3]; exact_mod_cast hc2
  · refine ⟨newCloud rng cw ch g, by simp [add_cloud, h], by simp [add_cloud, h],
      ?_, ?_, ?_, ?_, hf4, ?_, ?_⟩
    · rw [hf1]; exact_mod_cast ha1
    · rw [hf1]; exact_mod_cast ha2
    · rw [hf2]; exact_mod_cast hb1
    · rw [hf2]; exact_mod_cast hb2
    · rw [hf3]; exact_mod_cast hd1
    · rw [hf3]; exact_mod_cast hd2

/-- Witness for the amended C7 at a concrete state and the lower-bound
oracle. -/
theorem C7_spawn_contract_witness :
    (cfgSpawn.paused = false ∧ validRng rngLow ∧ (20 : ℤ) ≤ cfgSpawn.height) ∧
      ((∃ e, (add_enemy rngLow 8 8 cfgSpawn).enemies = cfgSpawn.enemies ++ [e] ∧
        (add_enemy rngLow 8 8 cfgSpawn).clouds = cfgSpawn.clouds ∧
        (cfgSpawn.width : ℚ) ≤ e.left ∧ e.left ≤ (cfgSpawn.width : ℚ) + 80 ∧
        (10 : ℚ) ≤ e.top ∧ e.top ≤ (cfgSpawn.height : ℚ) - 10 ∧
        e.change_y = 0 ∧ (-15 : ℚ) ≤ e.change_x ∧ e.change_x ≤ -5) ∧
      (∃ c, (add_cloud rngLow 6 4 cfgSpawn).clouds = cfgSpawn.clouds ++ [c] ∧
        (add_cloud rngLow 6 4 cfgSpawn).enemies = cfgSpawn.enemies ∧
        (cfgSpawn.width : ℚ) ≤ c.left ∧ c.left ≤ (cfgSpawn.width : ℚ) + 80 ∧
        (10 : ℚ) ≤ c.top ∧ c.top ≤ (cfgSpawn.height : ℚ) - 10 ∧
        c.change_y = 0 ∧ (-10 : ℚ) ≤ c.change_x ∧ c.change_x ≤ -5)) :=
  ⟨⟨rfl, fun a b hab => ⟨le_refl a, hab⟩, by norm_num [cfgSpawn]⟩,
    C7_spawn_contract cfgSpawn rngLow 8 8 6 4 rfl
      (fun a b hab => ⟨le_refl a, hab⟩) (by norm_num [cfgSpawn])⟩

/-- C8 counterexample: the claim says pressing Q terminates the process,
but the key handler has no case for Q: pressing Q at a concrete running
state changes nothing and does not close the window. -/
theorem C8_q_key_counterexample :
    on_key_press Key.q cfgKeys = cfgKeys ∧ (on_key_press Key.q cfgKeys).quit = false :=
  ⟨rfl, rfl⟩

/-- C8 amended: the key table with Q dropped.  Escape closes the window;
P toggles `paused`; O toggles `debug`; W/Up, S/Down, A/Left, D/Right set
the matching velocity component to +5 or -5; releasing a vertical
(resp. horizontal) movement key zeroes that component; the last event
overwrites the component; Q is not handled at all. -/
theorem C8_key_table (g : GameState) :
    (on_key_press Key.escape g).quit = true ∧
      (on_key_press Key.p g).paused = !g.paused ∧
      (on_key_press Key.o g).debug = !g.debug ∧
      (on_key_press Key.w g).player.change_y = 5 ∧
      (on_key_press Key.up g).player.change_y = 5 ∧
      (on_key_press Key.s g).player.change_y = -5 ∧
      (on_key_press Key.down g).player.change_y = -5 ∧
      (on_key_press Key.a g).player.change_x = -5 ∧
      (on_key_press Key.left g).player.change_x = -5 ∧
      (on_key_press Key.d g).player.change_x = 5 ∧
      (on_key_press Key.right g).player.change_x = 5 ∧
      (on_key_release Key.w g).player.change_y = 0 ∧
      (on_key_release Key.s g).player.change_y = 0 ∧
      (on_key_release Key.up g).player.change_y = 0 ∧
      (on_key_release Key.down g).player.change_y = 0 ∧
      (on_key_release Key.a g).player.change_x = 0 ∧
      (on_key_release Key.d g).player.change_x = 0 ∧
      (on_key_release Key.left g).player.change_x = 0 ∧
      (on_key_release Key.right g).player.change_x = 0 ∧
      (on_key_press Key.d (on_key_press Key.a g)).player.change_x = 5 ∧
      (on_key_press Key.w (on_key_press Key.s g)).player.change_y = 5 ∧
      on_key_press Key.q g = g :=
  ⟨rfl, rfl, rfl, rfl, rfl, rfl, rfl, rfl, rfl, rfl, rfl, rfl, rfl, rfl, rfl, rfl,
    rfl, rfl, rfl, rfl, rfl, rfl⟩

/-- C9 counterexample: the claim says every sprite's center moves by
exactly `(change_x, change_y)` in each unpaused `on_update`.  At
`cfgEdge` the first enemy is evicted during iteration, so the trailing
enemy is skipped by the mid-iteration removal: after the frame it still
sits at `center_x = 300` although its `change_x` is `-10`. -/
theorem C9_skipped_sprite_counterexample :
    (on_update 1 cfgEdge).enemies.map Sprite.center_x = [300] ∧
      cfgEdge.enemies.map Sprite.center_x = [2, 300] ∧
      cfgEdge.enemies.map Sprite.change_x = [-10, -10] ∧
      (300 : ℚ) ≠ 300 + (-10) := by
  refine ⟨?_, by norm_num [cfgEdge], by norm_num [cfgEdge], by norm_num⟩
  norm_num [on_update, cfgEdge, keep_player_in_bounds, clampSprite, spriteMoveStep,
    bindSetPositionAttr, Sprite.baseUpdate, Sprite.left, Sprite.right, Sprite.top,
    Sprite.bottom, Sprite.setLeft, Sprite.setRight, Sprite.setTop, Sprite.setBottom,
    collides, flyingUpdate, processFlying]

/-- C9 amended: the statement `sprite.set_position = (...)` only binds an
attribute and leaves the center untouched; a sprite that receives its
update moves by exactly `(change_x, change_y)`, independent of
`delta_time`; every enemy or cloud retained by an unpaused `on_update` is
either the result of such a full per-sprite update or an unchanged
original that the mid-iteration removal skipped (it moved `(0, 0)` that
frame); and no entity position produced by `on_update` depends on the
elapsed `delta_time`. -/
theorem C9_sprite_motion_characterized (s : Sprite) (dta dtb : ℚ) (g : GameState)
    (h : g.paused = false) :
    (bindSetPositionAttr dta s).center_x = s.center_x ∧
      (bindSetPositionAttr dta s).center_y = s.center_y ∧
      (spriteMoveStep dta s).center_x = s.center_x + s.change_x ∧
      (spriteMoveStep dta s).center_y = s.center_y + s.change_y ∧
      (∀ e ∈ (on_update dta g).enemies,
        (∃ a ∈ g.enemies, flyingUpdate dta a = some e) ∨ e ∈ g.enemies) ∧
      (∀ c ∈ (on_update dta g).clouds,
        (∃ a ∈ g.clouds, flyingUpdate dta a = some c) ∨ c ∈ g.clouds) ∧
      posView (on_update dta g) = posView (on_update dtb g) := by
  refine ⟨rfl, rfl, rfl, rfl, ?_, ?_, posView_onUpdate_dt dta dtb g h⟩
  · intro e hee
    rw [onUpdate_enemies dta g h] at hee
    exact processFlying_mem dta g.enemies e hee
  · intro c hcc
    rw [onUpdate_clouds dta g h] at hcc
    exact processFlying_mem dta g.clouds c hcc

/-- Witness for the amended C9 at a concrete state with an eviction and a
skip, and two different frame times. -/
theorem C9_sprite_motion_characterized_witness :
    cfgEdge.paused = false ∧
      ((bindSetPositionAttr (1/2) cfgEdge.player).center_x = cfgEdge.player.center_x ∧
        (bindSetPositionAttr (1/2) cfgEdge.player).center_y = cfgEdge.player.center_y ∧
        (spriteMoveStep (1/2) cfgEdge.player).center_x =
          cfgEdge.player.center_x + cfgEdge.player.change_x ∧
        (spriteMoveStep (1/2) cfgEdge.player).center_y =
          cfgEdge.player.center_y + cfgEdge.player.change_y ∧
        (∀ e ∈ (on_update (1/2) cfgEdge).enemies,
          (∃ a ∈ cfgEdge.enemies, flyingUpdate (1/2) a = some e) ∨ e ∈ cfgEdge.enemies) ∧
        (∀ c ∈ (on_update (1/2) cfgEdge).clouds,
          (∃ a ∈ cfgEdge.clouds, flyingUpdate (1/2) a = some c) ∨ c ∈ cfgEdge.clouds) ∧
        posView (on_update (1/2) cfgEdge) = posView (on_update 7 cfgEdge)) :=
  ⟨rfl, C9_sprite_motion_characterized cfgEdge.player (1/2) 7 cfgEdge rfl⟩

/-- C10: the `debug` flag does not interfere with the game: over any
sequence of frames, key events and spawns, the entire state apart from
the flag itself (positions, velocities, Registry contents, `paused`,
window closing and the whole effect trace) is the same whether `debug`
started true or false. -/
theorem C10_debug_noninterference (evs : List GEvent) (g : GameState) (b : Bool) :
    eraseDebug (runEvents evs { g with debug := b }) = eraseDebug (runEvents evs g) := by
  rw [runEvents_debug]
  simp [eraseDebug]

end Arcade
